import Mathlib

/-! Shallow embedding of the resume-adapter matching and assembly pipeline
(src/models/resume.py together with the data model it imports from
src/models/developer.py, src/models/work_experience.py and
src/models/job_offer.py), followed by proofs about the embedded code.
External language-model calls are abstracted as oracle parameters that
return either a structured response or an error, the error standing for
the exception the Python call would raise. -/

namespace ResumeAdapter

/-- Calendar date (Python datetime.date); only the year field takes part in
any computation embedded here. -/
structure Date where
  year : Int
  month : Nat
  day : Nat
  deriving DecidableEq, Repr, Inhabited

/-- Contact details of a developer (src/models/developer.py, ContactInfo). -/
structure ContactInfo where
  email : String
  phone : String
  address : String
  deriving DecidableEq, Repr, Inhabited

/-- A technical skill with a proficiency level (src/models/developer.py,
Skill); at runtime the level holds a plain string. -/
structure Skill where
  name : String
  level : String
  deriving DecidableEq, Repr, Inhabited

/-- An education entry (src/models/developer.py, Education). -/
structure Education where
  institution_name : String
  degree : String
  field_of_study : String
  start_date : Date
  end_date : Date
  deriving DecidableEq, Repr, Inhabited

/-- A certification entry (src/models/developer.py, Certification). -/
structure Certification where
  name : String
  issuing_organization : String
  issue_date : Date
  expiration_date : Date
  deriving DecidableEq, Repr, Inhabited

/-- A spoken language with proficiency (src/models/developer.py, Language). -/
structure Language where
  name : String
  proficiency : String
  deriving DecidableEq, Repr, Inhabited

/-- An achievement entry (src/models/developer.py, Achievement). -/
structure Achievement where
  title : String
  description : String
  deriving DecidableEq, Repr, Inhabited

/-- Job preferences of a developer (src/models/developer.py,
JobPreferences). -/
structure JobPreferences where
  job_title : String
  location : String
  employment_type : String
  remote_work : Bool
  salary_expectation : String
  other_conditions : List String
  deriving DecidableEq, Repr, Inhabited

/-- STAR-format project description (src/models/work_experience.py,
STARDescription). -/
structure STARDescription where
  situation : String
  task : String
  action : String
  result : String
  deriving DecidableEq, Repr, Inhabited

/-- A project inside a mission (src/models/work_experience.py, Project). -/
structure Project where
  project_name : String
  description : STARDescription
  technologies : List String
  achievements : List String
  deriving DecidableEq, Repr, Inhabited

/-- A single employment engagement (src/models/work_experience.py,
Mission). -/
structure Mission where
  job_title : String
  company_name : String
  start_date : Date
  end_date : Date
  overall_summary : String
  deriving DecidableEq, Repr, Inhabited

/-- A mission together with the projects done during it
(src/models/work_experience.py, WorkExperience). -/
structure WorkExperience where
  mission : Mission
  projects : List Project
  deriving DecidableEq, Repr, Inhabited

/-- Full developer profile (src/models/developer.py, Developer). -/
structure Developer where
  name : String
  contact_info : ContactInfo
  linkedin_url : String
  github_url : String
  website_url : String
  professional_summary : String
  technical_skills : List Skill
  soft_skills : List String
  work_experiences : List WorkExperience
  education : List Education
  certifications : List Certification
  languages : List Language
  achievements : List Achievement
  hobbies : List String
  job_preferences : JobPreferences
  deriving DecidableEq, Repr, Inhabited

/-- Experience requirements of a job (src/models/job_offer.py,
ExperienceRequirement). -/
structure ExperienceRequirement where
  years_of_experience : Int
  relevant_experiences : List String
  deriving DecidableEq, Repr, Inhabited

/-- Structured requirements of a job offer (src/models/job_offer.py,
JobRequirements). -/
structure JobRequirements where
  hard_skills : List String
  soft_skills : List String
  education_level : String
  certifications : List String
  experience : ExperienceRequirement
  languages : List String
  other_conditions : List String
  deriving DecidableEq, Repr, Inhabited

/-- A job offer (src/models/job_offer.py, JobOffer). -/
structure JobOffer where
  job_title : String
  company_name : String
  location : String
  employment_type : String
  description : String
  requirements : JobRequirements
  perks : List String
  application_deadline : Date
  deriving DecidableEq, Repr, Inhabited

/-- Structured reply of the per-project external reasoning call
(src/models/resume.py, ProjectMatchResponse). -/
structure ProjectMatchResponse where
  is_match : Bool
  matching_reason : String
  deriving DecidableEq, Repr, Inhabited

/-- Structured reply of the background-matching external call
(src/models/resume.py, BackgroundMatchResponse). -/
structure BackgroundMatchResponse where
  relevant_skills : List String
  relevant_education : List String
  match_explanation : String
  deriving DecidableEq, Repr, Inhabited

/-- The tailored resume record (src/models/resume.py, Resume). The field
relevant_education is annotated List of Education in the source, but at
runtime the code stores the raw strings returned by the external service,
so the embedding gives it type List String. -/
structure Resume where
  developer : Developer
  job_offer : JobOffer
  professional_summary : String
  relevant_skills : List Skill
  relevant_experience : List WorkExperience
  relevant_certifications : List Certification
  relevant_education : List String
  relevant_languages : List Language
  highlighted_achievements : List Achievement
  deriving DecidableEq, Repr, Inhabited

/-- Python substring containment (the in operator on strings), on the
underlying character lists. -/
def containsSub (needle : List Char) : List Char → Bool
  | [] => needle.isEmpty
  | c :: rest => needle.isPrefixOf (c :: rest) || containsSub needle rest

/-- Python expression needle in haystack on strings. -/
def strIn (needle haystack : String) : Bool :=
  containsSub needle.data haystack.data

/-- Python str.lower, character by character. -/
def pyLower (s : String) : String :=
  String.mk (s.data.map Char.toLower)

/-- The list comprehension over technical skills in
src/models/resume.py, lines 234 to 238: keep the skills whose name occurs
in the relevant_skills list of the service reply. -/
def relevantSkillsOf (developer : Developer) (response : BackgroundMatchResponse) : List Skill :=
  developer.technical_skills.filter (fun skill => response.relevant_skills.contains skill.name)

/-- Embedding of _match_developer_background (src/models/resume.py, lines
171 to 247). The external call is the oracle bgO; the code filters the
technical skills by name against the reply and passes the education
strings of the reply through unchanged (the comprehension at lines 240 to
243 copies the reply list verbatim). -/
def _match_developer_background {ε : Type}
    (bgO : Developer → ExperienceRequirement → JobRequirements → Except ε BackgroundMatchResponse)
    (developer : Developer) (experience_req : ExperienceRequirement)
    (requirements : JobRequirements) : Except ε (List Skill × List String) :=
  match bgO developer experience_req requirements with
  | .error e => .error e
  | .ok response =>
      .ok (relevantSkillsOf developer response,
        response.relevant_education.map (fun edu => edu))

/-- Inner loop of the project-matching pass (src/models/resume.py, lines
283 to 290) over the projects of one work experience: each project is sent
to the per-project oracle in order; an error stops the loop and
propagates; a matching project appends a pair to the first list and the
enclosing work experience to the second. -/
def matchInExp {ε : Type}
    (projO : Project → JobRequirements → Except ε ProjectMatchResponse)
    (requirements : JobRequirements) (exp : WorkExperience) :
    List Project → Except ε (List (Project × String) × List WorkExperience)
  | [] => .ok ([], [])
  | project :: rest =>
    match projO project requirements with
    | .error e => .error e
    | .ok response =>
      match matchInExp projO requirements exp rest with
      | .error e => .error e
      | .ok (prs, ws) =>
        if response.is_match then
          .ok ((project, response.matching_reason) :: prs, exp :: ws)
        else
          .ok (prs, ws)

/-- Outer loop of the project-matching pass (src/models/resume.py, lines
283 to 290) over all work experiences, concatenating the per-experience
results in order. -/
def matchExps {ε : Type}
    (projO : Project → JobRequirements → Except ε ProjectMatchResponse)
    (requirements : JobRequirements) :
    List WorkExperience → Except ε (List (Project × String) × List WorkExperience)
  | [] => .ok ([], [])
  | exp :: rest =>
    match matchInExp projO requirements exp exp.projects with
    | .error e => .error e
    | .ok (prs, ws) =>
      match matchExps projO requirements rest with
      | .error e => .error e
      | .ok (prs2, ws2) => .ok (prs ++ prs2, ws ++ ws2)

/-- The naive total-years estimate of src/models/resume.py, lines 302 to
305: the sum of end year minus start year over all work experiences. -/
def yearsExp (developer : Developer) : Int :=
  (developer.work_experiences.map
    (fun exp => exp.mission.end_date.year - exp.mission.start_date.year)).sum

/-- The summary_parts list of src/models/resume.py, lines 293 to 308: the
skills fragment when there are relevant skills, the education fragment
when there are relevant education entries, the years fragment, and the
target fragment. -/
def summaryParts (relevant_skills : List Skill) (relevant_education : List String)
    (years_exp : Int) (job_offer : JobOffer) : List String :=
  (match relevant_skills with
    | [] => []
    | _ :: _ =>
      ["Experienced in " ++
        String.intercalate ", " ((relevant_skills.take 3).map (fun skill => skill.name))])
  ++ (match relevant_education with
    | [] => []
    | edu :: _ => ["with " ++ edu])
  ++ ["and " ++ toString years_exp ++ "+ years of relevant experience"]
  ++ ["seeking " ++ job_offer.job_title ++ " position at " ++ job_offer.company_name]

/-- The lowered achievement text of src/models/resume.py, line 327: title,
one space, description, lowercased. -/
def achievementText (achievement : Achievement) : String :=
  pyLower (achievement.title ++ " " ++ achievement.description)

/-- The relevance test of src/models/resume.py, lines 328 to 331: some
required hard or soft skill, lowercased, occurs inside the lowered
achievement text. -/
def achievementRelevant (requirements : JobRequirements) (achievement : Achievement) : Bool :=
  (requirements.hard_skills ++ requirements.soft_skills).any
    (fun skill => strIn (pyLower skill) (achievementText achievement))

/-- The achievement selection loop of src/models/resume.py, lines 324 to
333. -/
def relevantAchievements (requirements : JobRequirements)
    (achievements : List Achievement) : List Achievement :=
  achievements.filter (achievementRelevant requirements)

/-- The pure tail of Resume.generate_resume (src/models/resume.py, lines
293 to 345): given the outputs of the two external passes, build the
summary string, filter certifications and languages by exact name
membership, select achievements, and assemble the record. -/
def buildResume (developer : Developer) (job_offer : JobOffer)
    (relevant_skills : List Skill) (relevant_education : List String)
    (relevant_work_experiences : List WorkExperience) : Resume :=
  { developer := developer
    job_offer := job_offer
    professional_summary :=
      String.intercalate " "
        (summaryParts relevant_skills relevant_education (yearsExp developer) job_offer)
    relevant_skills := relevant_skills
    relevant_experience := relevant_work_experiences
    relevant_certifications :=
      developer.certifications.filter
        (fun cert => job_offer.requirements.certifications.contains cert.name)
    relevant_education := relevant_education
    relevant_languages :=
      developer.languages.filter
        (fun lang => job_offer.requirements.languages.contains lang.name)
    highlighted_achievements :=
      relevantAchievements job_offer.requirements developer.achievements }

/-- Embedding of Resume.generate_resume (src/models/resume.py, lines 262
to 345): run the background match, then the per-project loop, propagating
any oracle error, then assemble the resume purely. -/
def Resume.generate_resume {ε : Type}
    (bgO : Developer → ExperienceRequirement → JobRequirements → Except ε BackgroundMatchResponse)
    (projO : Project → JobRequirements → Except ε ProjectMatchResponse)
    (developer : Developer) (job_offer : JobOffer) : Except ε Resume :=
  match _match_developer_background bgO developer
      job_offer.requirements.experience job_offer.requirements with
  | .error e => .error e
  | .ok (relevant_skills, relevant_education) =>
    match matchExps projO job_offer.requirements developer.work_experiences with
    | .error e => .error e
    | .ok matched =>
      .ok (buildResume developer job_offer relevant_skills relevant_education matched.2)

/-- An external background matcher whose replies are a total function of
its inputs and never fail. -/
def liftBg {ε : Type}
    (f : Developer → ExperienceRequirement → JobRequirements → BackgroundMatchResponse) :
    Developer → ExperienceRequirement → JobRequirements → Except ε BackgroundMatchResponse :=
  fun developer experience_req requirements => .ok (f developer experience_req requirements)

/-- An external per-project matcher whose replies are a total function of
its inputs and never fail. -/
def liftProj {ε : Type}
    (f : Project → JobRequirements → ProjectMatchResponse) :
    Project → JobRequirements → Except ε ProjectMatchResponse :=
  fun project requirements => .ok (f project requirements)

/-- Matched project and reason pairs collected from one experience when
the per-project matcher never fails. -/
def prsInExp (f : Project → JobRequirements → ProjectMatchResponse)
    (requirements : JobRequirements) : List Project → List (Project × String)
  | [] => []
  | project :: rest =>
    if (f project requirements).is_match then
      (project, (f project requirements).matching_reason) :: prsInExp f requirements rest
    else
      prsInExp f requirements rest

/-- Work-experience repetitions collected from one experience when the
per-project matcher never fails: one copy of the experience per matching
project. -/
def wsInExp (f : Project → JobRequirements → ProjectMatchResponse)
    (requirements : JobRequirements) (exp : WorkExperience) : List Project → List WorkExperience
  | [] => []
  | project :: rest =>
    if (f project requirements).is_match then
      exp :: wsInExp f requirements exp rest
    else
      wsInExp f requirements exp rest

/-- All matched project and reason pairs when the per-project matcher
never fails. -/
def prsOf (f : Project → JobRequirements → ProjectMatchResponse)
    (requirements : JobRequirements) : List WorkExperience → List (Project × String)
  | [] => []
  | exp :: rest => prsInExp f requirements exp.projects ++ prsOf f requirements rest

/-- The relevant work-experience list when the per-project matcher never
fails. -/
def wsOf (f : Project → JobRequirements → ProjectMatchResponse)
    (requirements : JobRequirements) : List WorkExperience → List WorkExperience
  | [] => []
  | exp :: rest => wsInExp f requirements exp exp.projects ++ wsOf f requirements rest

theorem matchInExp_lift {ε : Type} (f : Project → JobRequirements → ProjectMatchResponse)
    (requirements : JobRequirements) (exp : WorkExperience) (ps : List Project) :
    matchInExp (ε := ε) (liftProj f) requirements exp ps =
      .ok (prsInExp f requirements ps, wsInExp f requirements exp ps) := by
  induction ps with
  | nil => rfl
  | cons project rest ih =>
    by_cases hm : (f project requirements).is_match <;>
      simp [matchInExp, liftProj, prsInExp, wsInExp, ih, hm]

theorem matchExps_lift {ε : Type} (f : Project → JobRequirements → ProjectMatchResponse)
    (requirements : JobRequirements) (exps : List WorkExperience) :
    matchExps (ε := ε) (liftProj f) requirements exps =
      .ok (prsOf f requirements exps, wsOf f requirements exps) := by
  induction exps with
  | nil => rfl
  | cons exp rest ih =>
    simp [matchExps, matchInExp_lift, prsOf, wsOf, ih]

theorem generate_resume_lift {ε : Type}
    (f : Developer → ExperienceRequirement → JobRequirements → BackgroundMatchResponse)
    (g : Project → JobRequirements → ProjectMatchResponse)
    (developer : Developer) (job_offer : JobOffer) :
    Resume.generate_resume (ε := ε) (liftBg f) (liftProj g) developer job_offer =
      .ok (buildResume developer job_offer
        (relevantSkillsOf developer
          (f developer job_offer.requirements.experience job_offer.requirements))
        (f developer job_offer.requirements.experience job_offer.requirements).relevant_education
        (wsOf g job_offer.requirements developer.work_experiences)) := by
  simp [Resume.generate_resume, _match_developer_background, liftBg, matchExps_lift]

theorem generate_resume_ok_elim {ε : Type}
    {bgO : Developer → ExperienceRequirement → JobRequirements → Except ε BackgroundMatchResponse}
    {projO : Project → JobRequirements → Except ε ProjectMatchResponse}
    {developer : Developer} {job_offer : JobOffer} {r : Resume}
    (h : Resume.generate_resume bgO projO developer job_offer = .ok r) :
    ∃ response matched,
      bgO developer job_offer.requirements.experience job_offer.requirements = .ok response ∧
      matchExps projO job_offer.requirements developer.work_experiences = .ok matched ∧
      r = buildResume developer job_offer (relevantSkillsOf developer response)
            response.relevant_education matched.2 := by
  unfold Resume.generate_resume _match_developer_background at h
  cases hbg : bgO developer job_offer.requirements.experience job_offer.requirements with
  | error e => rw [hbg] at h; exact absurd h (by simp)
  | ok response =>
    rw [hbg] at h
    cases hm : matchExps projO job_offer.requirements developer.work_experiences with
    | error e => rw [hm] at h; exact absurd h (by simp)
    | ok matched =>
      rw [hm] at h
      simp only [List.map_id', Except.ok.injEq] at h
      exact ⟨response, matched, rfl, rfl, h.symm⟩

/-- Extract the success value of a resume generation, with a fallback. -/
def okOr (d : Resume) : Except String Resume → Resume
  | .ok r => r
  | .error _ => d

/-- Concrete calendar date with month and day fixed to one. -/
def cDate (y : Int) : Date :=
  { year := y, month := 1, day := 1 }

/-- Concrete project used by the witnesses. -/
def cProj1 : Project :=
  { project_name := "P"
    description := { situation := "s", task := "t", action := "a", result := "r" }
    technologies := ["A"]
    achievements := ["x"] }

/-- Concrete work experience used by the witnesses. -/
def cWe1 : WorkExperience :=
  { mission :=
      { job_title := "T", company_name := "C", start_date := cDate 2020
        end_date := cDate 2023, overall_summary := "m" }
    projects := [cProj1] }

/-- Concrete developer profile used by the witnesses. -/
def cDev1 : Developer :=
  { name := "Dev"
    contact_info := { email := "e", phone := "p", address := "a" }
    linkedin_url := "l"
    github_url := "g"
    website_url := "w"
    professional_summary := "s"
    technical_skills := [{ name := "A", level := "Expert" }]
    soft_skills := ["Teamwork"]
    work_experiences := [cWe1]
    education :=
      [{ institution_name := "U", degree := "BSc", field_of_study := "CS"
         start_date := cDate 2015, end_date := cDate 2019 }]
    certifications :=
      [{ name := "AWS", issuing_organization := "Amazon"
         issue_date := cDate 2021, expiration_date := cDate 2024 }]
    languages :=
      [{ name := "English", proficiency := "Native" },
       { name := "French", proficiency := "B2" }]
    achievements := [{ title := "Led team", description := "delivered project" }]
    hobbies := ["h"]
    job_preferences :=
      { job_title := "J", location := "L", employment_type := "F"
        remote_work := true, salary_expectation := "S", other_conditions := [] } }

/-- Concrete job offer used by the witnesses. -/
def cJob1 : JobOffer :=
  { job_title := "Senior Dev"
    company_name := "Acme"
    location := "Remote"
    employment_type := "Full-time"
    description := "d"
    requirements :=
      { hard_skills := ["A", "team"]
        soft_skills := ["Leadership"]
        education_level := "BSc"
        certifications := ["AWS"]
        experience := { years_of_experience := 3, relevant_experiences := ["dev"] }
        languages := ["English"]
        other_conditions := [] }
    perks := []
    application_deadline := cDate 2030 }

/-- Concrete never-failing background matcher reply. -/
def cBgF : Developer → ExperienceRequirement → JobRequirements → BackgroundMatchResponse :=
  fun _ _ _ =>
    { relevant_skills := ["A"], relevant_education := ["BSc"], match_explanation := "ok" }

/-- Concrete never-failing per-project matcher reply. -/
def cProjF : Project → JobRequirements → ProjectMatchResponse :=
  fun _ _ => { is_match := true, matching_reason := "overlap" }

/-- Concrete background oracle over the String error type. -/
def cBgO : Developer → ExperienceRequirement → JobRequirements → Except String BackgroundMatchResponse :=
  liftBg cBgF

/-- Concrete project oracle over the String error type. -/
def cProjO : Project → JobRequirements → Except String ProjectMatchResponse :=
  liftProj cProjF

/-- The resume generated from the concrete fixtures. -/
def cRes1 : Resume :=
  okOr default (Resume.generate_resume cBgO cProjO cDev1 cJob1)

theorem contains_eq_decide_mem {α : Type} [BEq α] [LawfulBEq α] (l : List α) (a : α) :
    l.contains a = decide (a ∈ l) := by
  simp [List.contains, List.elem_eq_mem]

/-- C1: for every developer and job offer, the relevant-certifications
list returned inside a successfully generated resume is exactly the
filter of the certifications of the developer whose name belongs, by
exact case-sensitive string equality, to the required certification names
of the job, in the original order; and the same law holds for languages
with respect to the required language names. -/
theorem relevant_certifications_languages_exact_filter {ε : Type}
    (bgO : Developer → ExperienceRequirement → JobRequirements → Except ε BackgroundMatchResponse)
    (projO : Project → JobRequirements → Except ε ProjectMatchResponse)
    (developer : Developer) (job_offer : JobOffer) (r : Resume)
    (h : Resume.generate_resume bgO projO developer job_offer = .ok r) :
    r.relevant_certifications =
      developer.certifications.filter
        (fun cert => decide (cert.name ∈ job_offer.requirements.certifications)) ∧
    r.relevant_languages =
      developer.languages.filter
        (fun lang => decide (lang.name ∈ job_offer.requirements.languages)) := by
  obtain ⟨response, matched, -, -, hr⟩ := generate_resume_ok_elim h
  subst hr
  constructor
  · exact List.filter_congr (fun cert _ => contains_eq_decide_mem _ _)
  · exact List.filter_congr (fun lang _ => contains_eq_decide_mem _ _)

/-- Witness for C1 at the concrete fixtures. -/
theorem relevant_certifications_languages_exact_filter_witness :
    cRes1.relevant_certifications =
      cDev1.certifications.filter
        (fun cert => decide (cert.name ∈ cJob1.requirements.certifications)) ∧
    cRes1.relevant_languages =
      cDev1.languages.filter
        (fun lang => decide (lang.name ∈ cJob1.requirements.languages)) :=
  relevant_certifications_languages_exact_filter cBgO cProjO cDev1 cJob1 cRes1 rfl

/-- Modelled from the claim wording, for comparison with the code: an
achievement is judged relevant when some required skill name occurs,
case-insensitively, inside the direct concatenation of the title and the
description with no separator between them. -/
def claimAchievementRelevant (requirements : JobRequirements) (achievement : Achievement) : Bool :=
  (requirements.hard_skills ++ requirements.soft_skills).any
    (fun skill => strIn (pyLower skill) (pyLower (achievement.title ++ achievement.description)))

/-- Achievement whose title and description join into a required skill
name only when no separator is inserted. -/
def cAch2 : Achievement :=
  { title := "Ja", description := "va" }

/-- Developer holding only the boundary-spanning achievement. -/
def cDev2 : Developer :=
  { cDev1 with achievements := [cAch2] }

/-- Job offer requiring exactly the skill that spans the boundary. -/
def cJob2 : JobOffer :=
  { cJob1 with
    requirements :=
      { cJob1.requirements with hard_skills := ["Java"], soft_skills := [] } }

/-- The resume generated from the boundary-spanning fixtures. -/
def cRes2 : Resume :=
  okOr default (Resume.generate_resume cBgO cProjO cDev2 cJob2)

/-- Counterexample to C2 as stated: the required skill Java occurs in the
direct concatenation of the title Ja and the description va, so the claim
places the achievement among the highlighted ones, yet the code joins
title and description with a space and leaves the output empty. -/
theorem achievement_filter_concat_counterexample :
    cAch2 ∈ cDev2.achievements ∧
    claimAchievementRelevant cJob2.requirements cAch2 = true ∧
    Resume.generate_resume cBgO cProjO cDev2 cJob2 = .ok cRes2 ∧
    cRes2.highlighted_achievements = [] := by
  refine ⟨by decide, by decide, rfl, by decide⟩

/-- C2 (amended): an achievement of the developer is highlighted in a
successfully generated resume exactly when some required hard or soft
skill name occurs, case-insensitively, inside the concatenation of the
title, one space, and the description of the achievement. -/
theorem achievement_filter_spacejoin_iff {ε : Type}
    (bgO : Developer → ExperienceRequirement → JobRequirements → Except ε BackgroundMatchResponse)
    (projO : Project → JobRequirements → Except ε ProjectMatchResponse)
    (developer : Developer) (job_offer : JobOffer) (r : Resume)
    (h : Resume.generate_resume bgO projO developer job_offer = .ok r)
    (achievement : Achievement) :
    achievement ∈ r.highlighted_achievements ↔
      achievement ∈ developer.achievements ∧
        ∃ skill ∈ job_offer.requirements.hard_skills ++ job_offer.requirements.soft_skills,
          strIn (pyLower skill)
            (pyLower (achievement.title ++ " " ++ achievement.description)) = true := by
  obtain ⟨response, matched, -, -, hr⟩ := generate_resume_ok_elim h
  subst hr
  simp only [buildResume, relevantAchievements, achievementRelevant, achievementText,
    List.mem_filter, List.any_eq_true]

/-- Witness for the amended C2 at the concrete fixtures. -/
theorem achievement_filter_spacejoin_iff_witness :
    { title := "Led team", description := "delivered project" : Achievement } ∈
        cRes1.highlighted_achievements ↔
      { title := "Led team", description := "delivered project" : Achievement } ∈
          cDev1.achievements ∧
        ∃ skill ∈ cJob1.requirements.hard_skills ++ cJob1.requirements.soft_skills,
          strIn (pyLower skill) (pyLower ("Led team" ++ " " ++ "delivered project")) = true :=
  achievement_filter_spacejoin_iff cBgO cProjO cDev1 cJob1 cRes1 rfl
    { title := "Led team", description := "delivered project" }

/-- C3: the achievement filter is monotone in the required skills: when
the job requirements are extended with one further hard skill, or with
one further soft skill, every achievement highlighted for the original
job stays highlighted for the extended one. -/
theorem achievement_filter_monotone {ε : Type}
    (bgO bgO2 bgO3 : Developer → ExperienceRequirement → JobRequirements → Except ε BackgroundMatchResponse)
    (projO projO2 projO3 : Project → JobRequirements → Except ε ProjectMatchResponse)
    (developer : Developer) (job_offer : JobOffer) (skill : String) (r r2 r3 : Resume)
    (h : Resume.generate_resume bgO projO developer job_offer = .ok r)
    (h2 : Resume.generate_resume bgO2 projO2 developer
      { job_offer with requirements :=
        { job_offer.requirements with
          hard_skills := job_offer.requirements.hard_skills ++ [skill] } } = .ok r2)
    (h3 : Resume.generate_resume bgO3 projO3 developer
      { job_offer with requirements :=
        { job_offer.requirements with
          soft_skills := job_offer.requirements.soft_skills ++ [skill] } } = .ok r3)
    (achievement : Achievement)
    (ha : achievement ∈ r.highlighted_achievements) :
    achievement ∈ r2.highlighted_achievements ∧
    achievement ∈ r3.highlighted_achievements := by
  obtain ⟨response, matched, -, -, hr⟩ := generate_resume_ok_elim h
  obtain ⟨response2, matched2, -, -, hr2⟩ := generate_resume_ok_elim h2
  obtain ⟨response3, matched3, -, -, hr3⟩ := generate_resume_ok_elim h3
  subst hr hr2 hr3
  simp only [buildResume, relevantAchievements, List.mem_filter] at ha ⊢
  obtain ⟨hmem, hrel⟩ := ha
  simp only [achievementRelevant, List.any_eq_true, List.mem_append] at hrel
  obtain ⟨s, hs, hfound⟩ := hrel
  refine ⟨⟨hmem, ?_⟩, ⟨hmem, ?_⟩⟩ <;>
    · simp only [achievementRelevant, List.any_eq_true, List.mem_append]
      exact ⟨s, by rcases hs with hs | hs <;> simp [hs], hfound⟩

/-- Witness for C3 at the concrete fixtures, extending the requirements
with one further skill name. -/
theorem achievement_filter_monotone_witness :
    { title := "Led team", description := "delivered project" : Achievement } ∈
      (okOr default (Resume.generate_resume cBgO cProjO cDev1
        { cJob1 with requirements :=
          { cJob1.requirements with
            hard_skills := cJob1.requirements.hard_skills ++ ["Python"] } })).highlighted_achievements ∧
    { title := "Led team", description := "delivered project" : Achievement } ∈
      (okOr default (Resume.generate_resume cBgO cProjO cDev1
        { cJob1 with requirements :=
          { cJob1.requirements with
            soft_skills := cJob1.requirements.soft_skills ++ ["Python"] } })).highlighted_achievements :=
  achievement_filter_monotone cBgO cBgO cBgO cProjO cProjO cProjO cDev1 cJob1 "Python"
    cRes1 _ _ rfl rfl rfl
    { title := "Led team", description := "delivered project" } (by decide)

/-- Developer with exactly the two missions of the spec example: one
spanning 2020 to 2023 and one inside 2019. -/
def cDevY : Developer :=
  { cDev1 with
    work_experiences :=
      [{ mission :=
           { job_title := "T1", company_name := "C1"
             start_date := { year := 2020, month := 1, day := 1 }
             end_date := { year := 2023, month := 1, day := 1 }
             overall_summary := "m1" }
         projects := [] },
       { mission :=
           { job_title := "T2", company_name := "C2"
             start_date := { year := 2019, month := 6, day := 1 }
             end_date := { year := 2019, month := 12, day := 1 }
             overall_summary := "m2" }
         projects := [] }] }

theorem years_part_mem (relevant_skills : List Skill) (relevant_education : List String)
    (years : Int) (job_offer : JobOffer) :
    ("and " ++ toString years ++ "+ years of relevant experience") ∈
      summaryParts relevant_skills relevant_education years job_offer := by
  cases relevant_skills <;> cases relevant_education <;>
    simp [summaryParts]

/-- Counterexample to C4 as stated: for the developer with the two
missions of the spec example, the embedded years figure is 3, not 4. -/
theorem years_exp_example_counterexample :
    yearsExp cDevY = 3 ∧ yearsExp cDevY ≠ 4 := by
  decide

/-- C4 (amended): the years figure is the arithmetic sum of end year
minus start year over all work experiences, the summary parts always
carry that figure in the years fragment, and for a developer with exactly
the two missions spanning 2020 to 2023 and 2019 to 2019 the total is 3. -/
theorem years_exp_sum_law :
    (∀ developer : Developer,
      yearsExp developer =
        (developer.work_experiences.map
          (fun exp => exp.mission.end_date.year - exp.mission.start_date.year)).sum) ∧
    (∀ (relevant_skills : List Skill) (relevant_education : List String)
        (developer : Developer) (job_offer : JobOffer),
      ("and " ++ toString (yearsExp developer) ++ "+ years of relevant experience") ∈
        summaryParts relevant_skills relevant_education (yearsExp developer) job_offer) ∧
    yearsExp cDevY = 3 := by
  refine ⟨fun developer => rfl, ?_, by decide⟩
  intro relevant_skills relevant_education developer job_offer
  exact years_part_mem relevant_skills relevant_education (yearsExp developer) job_offer

/-- C5: the professional summary of a successfully generated resume is
the deterministic intercalation of the summary parts computed from the
reply of the background matcher, the developer profile, and the target
job: fixing the matcher reply fixes the whole string. -/
theorem professional_summary_deterministic {ε : Type}
    (bgO : Developer → ExperienceRequirement → JobRequirements → Except ε BackgroundMatchResponse)
    (projO : Project → JobRequirements → Except ε ProjectMatchResponse)
    (developer : Developer) (job_offer : JobOffer)
    (response : BackgroundMatchResponse) (r : Resume)
    (hbg : bgO developer job_offer.requirements.experience job_offer.requirements = .ok response)
    (h : Resume.generate_resume bgO projO developer job_offer = .ok r) :
    r.professional_summary =
      String.intercalate " "
        (summaryParts (relevantSkillsOf developer response) response.relevant_education
          (yearsExp developer) job_offer) := by
  obtain ⟨response0, matched, hbg0, -, hr⟩ := generate_resume_ok_elim h
  rw [hbg] at hbg0
  cases hbg0
  subst hr
  rfl

/-- Witness for C5 at the concrete fixtures. -/
theorem professional_summary_deterministic_witness :
    cRes1.professional_summary =
      String.intercalate " "
        (summaryParts
          (relevantSkillsOf cDev1 (cBgF cDev1 cJob1.requirements.experience cJob1.requirements))
          (cBgF cDev1 cJob1.requirements.experience cJob1.requirements).relevant_education
          (yearsExp cDev1) cJob1) :=
  professional_summary_deterministic cBgO cProjO cDev1 cJob1
    (cBgF cDev1 cJob1.requirements.experience cJob1.requirements) cRes1 rfl rfl

/-- Background matcher reply naming an education entry the developer does
not have. -/
def cBgF6 : Developer → ExperienceRequirement → JobRequirements → BackgroundMatchResponse :=
  fun _ _ _ =>
    { relevant_skills := []
      relevant_education := ["Fabricated degree"]
      match_explanation := "x" }

/-- Oracle form of the fabricating background matcher. -/
def cBgO6 : Developer → ExperienceRequirement → JobRequirements → Except String BackgroundMatchResponse :=
  liftBg cBgF6

/-- Developer with no education entries at all. -/
def cDev6 : Developer :=
  { cDev1 with education := [] }

/-- C6 fails on the code: for a developer with no education entries and a
service reply naming a fabricated degree, the relevant-education output
of the embedded _match_developer_background is that fabricated string
list, verbatim, which is not drawn from the education entries of the
developer; the relevant-skills half of the claim does filter the
technical skills of the developer. -/
theorem match_background_education_passthrough :
    cDev6.education = [] ∧
    _match_developer_background cBgO6 cDev6
        cJob1.requirements.experience cJob1.requirements =
      .ok ([], ["Fabricated degree"]) :=
  ⟨rfl, rfl⟩

/-- Job offer demanding no certification at all. -/
def cJob7 : JobOffer :=
  { cJob1 with
    requirements := { cJob1.requirements with certifications := [] } }

/-- The resume generated against the certification-free job offer. -/
def cRes7 : Resume :=
  okOr default (Resume.generate_resume cBgO cProjO cDev1 cJob7)

/-- C7: when the job offer requires no certifications, the
relevant-certifications list of a successfully generated resume is empty,
whatever the certifications of the developer. -/
theorem empty_required_certifications {ε : Type}
    (bgO : Developer → ExperienceRequirement → JobRequirements → Except ε BackgroundMatchResponse)
    (projO : Project → JobRequirements → Except ε ProjectMatchResponse)
    (developer : Developer) (job_offer : JobOffer) (r : Resume)
    (hempty : job_offer.requirements.certifications = [])
    (h : Resume.generate_resume bgO projO developer job_offer = .ok r) :
    r.relevant_certifications = [] := by
  obtain ⟨response, matched, -, -, hr⟩ := generate_resume_ok_elim h
  subst hr
  simp [buildResume, hempty]

/-- Witness for C7 at the concrete fixtures. -/
theorem empty_required_certifications_witness :
    cRes7.relevant_certifications = [] :=
  empty_required_certifications cBgO cProjO cDev1 cJob7 cRes7 rfl rfl

theorem matchInExp_ok_of_forall {ε : Type}
    (projO : Project → JobRequirements → Except ε ProjectMatchResponse)
    (requirements : JobRequirements) (exp : WorkExperience) (ps : List Project)
    (hok : ∀ q ∈ ps, ∃ resp, projO q requirements = .ok resp) :
    ∃ v, matchInExp projO requirements exp ps = .ok v := by
  induction ps with
  | nil => exact ⟨([], []), rfl⟩
  | cons q rest ih =>
    obtain ⟨resp, hq⟩ := hok q (List.mem_cons_self q rest)
    obtain ⟨⟨prs, ws⟩, hv⟩ := ih (fun x hx => hok x (List.mem_cons_of_mem q hx))
    by_cases hm : resp.is_match
    · exact ⟨((q, resp.matching_reason) :: prs, exp :: ws), by simp [matchInExp, hq, hv, hm]⟩
    · exact ⟨(prs, ws), by simp [matchInExp, hq, hv, hm]⟩

theorem matchInExp_error_of_first {ε : Type}
    (projO : Project → JobRequirements → Except ε ProjectMatchResponse)
    (requirements : JobRequirements) (exp : WorkExperience)
    (pre : List Project) (p : Project) (post : List Project) (e : ε)
    (hpre : ∀ q ∈ pre, ∃ resp, projO q requirements = .ok resp)
    (hp : projO p requirements = .error e) :
    matchInExp projO requirements exp (pre ++ p :: post) = .error e := by
  induction pre with
  | nil => simp [matchInExp, hp]
  | cons q rest ih =>
    obtain ⟨resp, hq⟩ := hpre q (List.mem_cons_self q rest)
    have ih2 := ih (fun x hx => hpre x (List.mem_cons_of_mem q hx))
    simp [matchInExp, hq, ih2]

theorem matchExps_error_of_first {ε : Type}
    (projO : Project → JobRequirements → Except ε ProjectMatchResponse)
    (requirements : JobRequirements)
    (preE : List WorkExperience) (exp : WorkExperience) (postE : List WorkExperience) (e : ε)
    (hpreE : ∀ w ∈ preE, ∀ q ∈ w.projects, ∃ resp, projO q requirements = .ok resp)
    (hexp : matchInExp projO requirements exp exp.projects = .error e) :
    matchExps projO requirements (preE ++ exp :: postE) = .error e := by
  induction preE with
  | nil => simp [matchExps, hexp]
  | cons w rest ih =>
    obtain ⟨⟨prs, ws⟩, hw⟩ :=
      matchInExp_ok_of_forall projO requirements w w.projects
        (hpreE w (List.mem_cons_self w rest))
    have ih2 := ih (fun x hx => hpreE x (List.mem_cons_of_mem w hx))
    simp [matchExps, hw, ih2]

/-- C8: when the background call succeeds and some per-project call of the
external reasoning service fails, the first failing call in iteration
order makes the whole resume generation return exactly that error: no
retry is attempted and no fallback resume is produced. -/
theorem error_propagation_first_failure {ε : Type}
    (bgO : Developer → ExperienceRequirement → JobRequirements → Except ε BackgroundMatchResponse)
    (projO : Project → JobRequirements → Except ε ProjectMatchResponse)
    (developer : Developer) (job_offer : JobOffer)
    (response : BackgroundMatchResponse) (e : ε)
    (preE postE : List WorkExperience) (exp : WorkExperience)
    (pre post : List Project) (p : Project)
    (hbg : bgO developer job_offer.requirements.experience job_offer.requirements = .ok response)
    (hsplit : developer.work_experiences = preE ++ exp :: postE)
    (hpreE : ∀ w ∈ preE, ∀ q ∈ w.projects, ∃ resp, projO q job_offer.requirements = .ok resp)
    (hps : exp.projects = pre ++ p :: post)
    (hpre : ∀ q ∈ pre, ∃ resp, projO q job_offer.requirements = .ok resp)
    (hp : projO p job_offer.requirements = .error e) :
    Resume.generate_resume bgO projO developer job_offer = .error e := by
  have hexp : matchInExp projO job_offer.requirements exp exp.projects = .error e := by
    rw [hps]
    exact matchInExp_error_of_first projO job_offer.requirements exp pre p post e hpre hp
  have hms : matchExps projO job_offer.requirements developer.work_experiences = .error e := by
    rw [hsplit]
    exact matchExps_error_of_first projO job_offer.requirements preE exp postE e hpreE hexp
  simp [Resume.generate_resume, _match_developer_background, hbg, hms]

/-- Per-project oracle that always fails. -/
def cProjErr : Project → JobRequirements → Except String ProjectMatchResponse :=
  fun _ _ => .error "boom"

/-- Witness for C8 at the concrete fixtures: the single project call
fails and the generation returns exactly its error. -/
theorem error_propagation_first_failure_witness :
    Resume.generate_resume cBgO cProjErr cDev1 cJob1 = .error "boom" :=
  error_propagation_first_failure cBgO cProjErr cDev1 cJob1
    (cBgF cDev1 cJob1.requirements.experience cJob1.requirements) "boom"
    [] [] cWe1 [] [] cProj1
    rfl rfl (fun _ hw => nomatch hw) rfl (fun _ hq => nomatch hq) rfl

theorem count_wsInExp (f : Project → JobRequirements → ProjectMatchResponse)
    (requirements : JobRequirements) (exp w : WorkExperience) (ps : List Project) :
    (wsInExp f requirements w ps).count exp =
      if w = exp then
        (ps.filter (fun project => (f project requirements).is_match)).length
      else 0 := by
  induction ps with
  | nil => simp [wsInExp]
  | cons project rest ih =>
    by_cases hw : w = exp
    · subst hw
      by_cases hm : (f project requirements).is_match <;>
        simp [wsInExp, hm, List.count_cons, ih]
    · by_cases hm : (f project requirements).is_match <;>
        simp [wsInExp, hm, hw, List.count_cons, ih]

theorem count_wsOf_not_mem (f : Project → JobRequirements → ProjectMatchResponse)
    (requirements : JobRequirements) (exp : WorkExperience) (exps : List WorkExperience)
    (h : exp ∉ exps) :
    (wsOf f requirements exps).count exp = 0 := by
  induction exps with
  | nil => simp [wsOf]
  | cons w rest ih =>
    simp only [List.mem_cons, not_or] at h
    obtain ⟨hw, hrest⟩ := h
    simp [wsOf, List.count_append, count_wsInExp, Ne.symm hw, ih hrest]

theorem count_wsOf_of_count_one (f : Project → JobRequirements → ProjectMatchResponse)
    (requirements : JobRequirements) (exp : WorkExperience) (exps : List WorkExperience)
    (h : exps.count exp = 1) :
    (wsOf f requirements exps).count exp =
      (exp.projects.filter (fun project => (f project requirements).is_match)).length := by
  induction exps with
  | nil => simp at h
  | cons w rest ih =>
    by_cases hw : w = exp
    · subst hw
      have hrest : rest.count w = 0 := by
        rw [List.count_cons] at h
        simp at h
        omega
      have hnot : w ∉ rest := List.count_eq_zero.mp hrest
      simp [wsOf, List.count_append, count_wsInExp,
        count_wsOf_not_mem f requirements w rest hnot]
    · have hrest : rest.count exp = 1 := by
        rw [List.count_cons] at h
        simpa [hw] using h
      simp [wsOf, List.count_append, count_wsInExp, hw, ih hrest]

/-- C9: the relevant-experience list of a resume generated with
never-failing matchers holds one entry per matched project: a work
experience occurring once in the profile occurs in the output exactly as
many times as it has projects judged relevant, with no deduplication. -/
theorem relevant_experience_count_per_matched_project {ε : Type}
    (bgF : Developer → ExperienceRequirement → JobRequirements → BackgroundMatchResponse)
    (projF : Project → JobRequirements → ProjectMatchResponse)
    (developer : Developer) (job_offer : JobOffer) (exp : WorkExperience) (r : Resume)
    (hcount : developer.work_experiences.count exp = 1)
    (h : Resume.generate_resume (ε := ε) (liftBg bgF) (liftProj projF) developer job_offer
      = .ok r) :
    r.relevant_experience.count exp =
      (exp.projects.filter
        (fun project => (projF project job_offer.requirements).is_match)).length := by
  rw [generate_resume_lift] at h
  injection h with h
  subst h
  exact count_wsOf_of_count_one projF job_offer.requirements exp
    developer.work_experiences hcount

/-- Witness for C9 at the concrete fixtures: the single experience occurs
once in the profile and its single project matches, so it occurs once in
the output. -/
theorem relevant_experience_count_per_matched_project_witness :
    cRes1.relevant_experience.count cWe1 =
      (cWe1.projects.filter
        (fun project => (cProjF project cJob1.requirements).is_match)).length :=
  relevant_experience_count_per_matched_project (ε := String) cBgF cProjF cDev1 cJob1 cWe1
    cRes1 (by decide) rfl

/-- C10: a successfully generated resume stores the input developer
profile and the input job offer unchanged in its developer and job_offer
fields; the generation is a pure function of its inputs and the oracle
replies, so neither input is modified. -/
theorem inputs_stored_unchanged {ε : Type}
    (bgO : Developer → ExperienceRequirement → JobRequirements → Except ε BackgroundMatchResponse)
    (projO : Project → JobRequirements → Except ε ProjectMatchResponse)
    (developer : Developer) (job_offer : JobOffer) (r : Resume)
    (h : Resume.generate_resume bgO projO developer job_offer = .ok r) :
    r.developer = developer ∧ r.job_offer = job_offer := by
  obtain ⟨response, matched, -, -, hr⟩ := generate_resume_ok_elim h
  subst hr
  exact ⟨rfl, rfl⟩

/-- Witness for C10 at the concrete fixtures. -/
theorem inputs_stored_unchanged_witness :
    cRes1.developer = cDev1 ∧ cRes1.job_offer = cJob1 :=
  inputs_stored_unchanged cBgO cProjO cDev1 cJob1 cRes1 rfl

end ResumeAdapter
